import Mathlib

/-!
Verification of `wpilib/ultrasonic.py` (class `Ultrasonic`): a shallow
embedding of the ultrasonic rangefinder scheduler and sensor accessors,
with theorems settling the specification claims about it.

Modelling conventions:
* Python floats become `ℚ` (all claimed formulas are exact products).
* The class-level state (`Ultrasonic.automaticEnabled`, `Ultrasonic._thread`,
  `Ultrasonic.sensors`) becomes an explicit `UltraState` record threaded
  through the operations.
* `threading.Thread` is modelled by its observable lifecycle: `fresh`
  (constructed, never started), `running` (started and alive), `done`
  (started and terminated).  `Thread.start` on a thread that was already
  started raises `RuntimeError` in Python; this is modelled by
  `threadStart` returning `Except.error`.  `Ultrasonic._thread` is `None`
  only before the first `__init__` runs; every operation modelled here is
  an instance method, so a thread object always exists and the `None`
  case is dropped.
* The background checker thread interleaves with foreground calls only
  through `Ultrasonic.automaticEnabled`.  `ultrasonicChecker` re-reads
  that flag at every loop head and before every sensor visit; the
  successive values it reads are modelled by an oracle `flag : Nat → Bool`
  (one index per read).  `setAutomaticMode False` spins until the checker
  thread dies; since the checker exits as soon as it reads a false flag,
  a `running` thread is `done` by the time the spin loop returns, which is
  folded into the atomic `setAutomaticMode` transition.
* `weakref.WeakSet` iteration is modelled as a `List (Option Sensor)`,
  keeping the `if u is None: continue` / `if u is not None` checks of the
  source.
* `raise ValueError(...)` becomes `Except.error` (Python's string
  formatting with quotes around the value is simplified to appending the
  value).
-/

/-- Time (sec) for the ping trigger pulse: `kPingTime = 10 * 1e-6`. -/
def kPingTime : ℚ := 10 / 1000000

/-- Priority that the ultrasonic round robin task runs. -/
def kPriority : ℕ := 90

/-- Max time between readings: `kMaxUltrasonicTime = 0.1`. -/
def kMaxUltrasonicTime : ℚ := 1 / 10

/-- `kSpeedOfSoundInchesPerSec = 1130.0 * 12.0`. -/
def kSpeedOfSoundInchesPerSec : ℚ := 1130 * 12

/-- The settle wait `Timer.delay(.1)` executed after each visited sensor in
`ultrasonicChecker` ("wait for ping to return"). -/
def kSettleTime : ℚ := 1 / 10

/-- The poll interval `Timer.delay(.15)` used by `setAutomaticMode(False)`
while waiting for the background task to stop. -/
def kStopPollTime : ℚ := 15 / 100

/-- `Ultrasonic.Unit.kInches`. -/
def kInches : ℤ := 0

/-- `Ultrasonic.Unit.kMillimeters`. -/
def kMillimeters : ℤ := 1

/-- The echo-timing `Counter` of a sensor: the edge count accumulated since
the last reset, and the semi-period timing it measures. -/
structure Counter where
  count : ℕ
  period : ℚ
  deriving DecidableEq

/-- `Counter.get`: the accumulated edge count. -/
def Counter.get (c : Counter) : ℕ := c.count

/-- `Counter.getPeriod`: the measured period in seconds. -/
def Counter.getPeriod (c : Counter) : ℚ := c.period

/-- `Counter.reset`: clears the accumulated edge count. -/
def Counter.reset (c : Counter) : Counter := { c with count := 0 }

/-- One `Ultrasonic` sensor instance: its echo counter, its configured
distance unit (`self.units`) and its round-robin enable flag
(`self.enabled`). -/
structure Sensor where
  counter : Counter
  units : ℤ
  enabled : Bool
  deriving DecidableEq

/-- `Ultrasonic.__init__` on the per-sensor fields: `self.units = units`
(no validation), `self.enabled = True`, and the counter is reset. -/
def mkSensor (units : ℤ) : Sensor :=
  { counter := { count := 0, period := 0 }, units := units, enabled := true }

/-- `Ultrasonic.isEnabled`. -/
def isEnabled (u : Sensor) : Bool := u.enabled

/-- `Ultrasonic.setEnabled`. -/
def setEnabled (enable : Bool) (u : Sensor) : Sensor := { u with enabled := enable }

/-- `Ultrasonic.isRangeValid`: `self.counter.get() > 1`. -/
def isRangeValid (u : Sensor) : Bool := u.counter.get > 1

/-- `Ultrasonic.getRangeInches`: the period times the speed of sound over 2
when the range is valid, else `0`. -/
def getRangeInches (u : Sensor) : ℚ :=
  if isRangeValid u then u.counter.getPeriod * kSpeedOfSoundInchesPerSec / 2 else 0

/-- `Ultrasonic.getRangeMM`: `self.getRangeInches() * 25.4`. -/
def getRangeMM (u : Sensor) : ℚ := getRangeInches u * (254 / 10)

/-- `Ultrasonic.pidGet`: the range in the configured unit, `0.0` for an
unrecognized unit. -/
def pidGet (u : Sensor) : ℚ :=
  if u.units = kInches then getRangeInches u
  else if u.units = kMillimeters then getRangeMM u
  else 0

/-- `Ultrasonic.setDistanceUnits`: raises `ValueError` when `units` is not
in `[kInches, kMillimeters]`, otherwise stores it. -/
def setDistanceUnits (units : ℤ) (u : Sensor) : Except String Sensor :=
  if ¬(units = kInches ∨ units = kMillimeters) then
    .error ("Invalid units argument " ++ toString units)
  else
    .ok { u with units := units }

/-- `Ultrasonic.getDistanceUnits`. -/
def getDistanceUnits (u : Sensor) : ℤ := u.units

/-- Observable lifecycle of the `threading.Thread` object held in
`Ultrasonic._thread`. -/
inductive ThreadState where
  | fresh
  | running
  | done
  deriving DecidableEq

/-- `Thread.is_alive()`: true from `start()` until the target returns. -/
def threadIsAlive : ThreadState → Bool
  | .running => true
  | _ => false

/-- `Thread.start()`: starts a never-started thread; raises
`RuntimeError` when the thread was already started (Python threads cannot
be restarted). -/
def threadStart : ThreadState → Except String ThreadState
  | .fresh => .ok .running
  | _ => .error "threads can only be started once"

/-- The class-level state of `Ultrasonic`: the automatic-mode flag, the
round-robin thread handle, and the weak set of sensors (a `none` entry is
a collected weak reference). -/
structure UltraState where
  automaticEnabled : Bool
  thread : ThreadState
  sensors : List (Option Sensor)
  deriving DecidableEq

/-- `Ultrasonic.isAutomaticMode` (the lock only serializes access; the
read itself returns the flag). -/
def isAutomaticMode (s : UltraState) : Bool := s.automaticEnabled

/-- `u.counter.reset()` applied to a weak-set entry when it is live. -/
def resetOpt : Option Sensor → Option Sensor
  | none => none
  | some u => some { u with counter := u.counter.reset }

/-- `Ultrasonic.setAutomaticMode`.  Early-returns when enabling an already
automatic mode; otherwise writes the flag under the lock and then either
resets all live counters and starts the thread (enable), or spins until
the thread is dead and then resets all live counters (disable).  A
`running` checker observes the false flag and exits, so the spin loop
turns `running` into `done`. -/
def setAutomaticMode (enabling : Bool) (s : UltraState) : Except String UltraState :=
  if enabling && isAutomaticMode s then
    .ok s
  else
    let s1 : UltraState := { s with automaticEnabled := enabling }
    if enabling then
      let s2 : UltraState := { s1 with sensors := s1.sensors.map resetOpt }
      match threadStart s2.thread with
      | .ok t => .ok { s2 with thread := t }
      | .error e => .error e
    else
      let s2 : UltraState :=
        { s1 with thread := if threadIsAlive s1.thread then .done else s1.thread }
      .ok { s2 with sensors := s2.sensors.map resetOpt }

/-- The class-level part of `Ultrasonic.__init__`: a new thread object is
created when `_thread` is `None` or not alive, and the sensor is added to
the weak set. -/
def addSensor (units : ℤ) (s : UltraState) : UltraState :=
  { s with
    thread := if threadIsAlive s.thread then s.thread else .fresh,
    sensors := s.sensors ++ [some (mkSensor units)] }

/-- The class-level state right after the first `Ultrasonic.__init__` has
created the thread object, before any sensor is appended. -/
def ultraStart : UltraState :=
  { automaticEnabled := false, thread := .fresh, sensors := [] }

/-- Runs a sequence of `setAutomaticMode` calls, stopping at the first
raised exception. -/
def applyToggles : List Bool → UltraState → Except String UltraState
  | [], s => .ok s
  | b :: rest, s =>
    match setAutomaticMode b s with
    | .ok s' => applyToggles rest s'
    | .error e => .error e

/-- Primitive side effects performed by `Ultrasonic.ping`, in order. -/
inductive PingAction where
  | setAutomatic (enabling : Bool)
  | counterReset (i : ℕ)
  | pulse (i : ℕ) (t : ℚ)
  deriving DecidableEq

/-- `self.counter.reset()` for the sensor at index `i` of the weak set. -/
def resetCounterAt : ℕ → List (Option Sensor) → List (Option Sensor)
  | _, [] => []
  | 0, u :: rest => resetOpt u :: rest
  | i + 1, u :: rest => u :: resetCounterAt i rest

/-- `Ultrasonic.ping` for the sensor at index `i`: disables automatic
mode, resets this sensor's own counter, then pulses the ping channel for
`kPingTime`; the returned trace records the three steps in program
order. -/
def ping (i : ℕ) (s : UltraState) : Except String (UltraState × List PingAction) :=
  match setAutomaticMode false s with
  | .error e => .error e
  | .ok s1 =>
    let s2 : UltraState := { s1 with sensors := resetCounterAt i s1.sensors }
    .ok (s2, [.setAutomatic false, .counterReset i, .pulse i kPingTime])

/-- Hardware-visible events of one `ultrasonicChecker` run. -/
inductive CheckEvent where
  | pulse (u : Sensor) (t : ℚ)
  | delay (t : ℚ)
  deriving DecidableEq

/-- The inner `for u in Ultrasonic.sensors` loop of `ultrasonicChecker`,
starting at flag-oracle index `k`.  Returns `(some count)` when the pass
ran to completion counting `count` live sensors, `none` when the loop
returned early because `isAutomaticMode()` read false; also the emitted
hardware events and the next flag-oracle index. -/
def runPassAux (flag : ℕ → Bool) : List (Option Sensor) → ℕ → Option ℕ × List CheckEvent × ℕ
  | [], k => (some 0, [], k)
  | u :: rest, k =>
    if flag k then
      match u with
      | none => runPassAux flag rest (k + 1)
      | some sensor =>
        ((runPassAux flag rest (k + 1)).1.map (· + 1),
         (if isEnabled sensor then [CheckEvent.pulse sensor kPingTime] else []) ++
           CheckEvent.delay kSettleTime :: (runPassAux flag rest (k + 1)).2.1,
         (runPassAux flag rest (k + 1)).2.2)
    else
      (none, [], k + 1)

/-- The outer `while Ultrasonic.isAutomaticMode()` loop of
`ultrasonicChecker`, with `fuel` bounding the number of passes.  Returns
`some trace` when the loop returned within `fuel` passes, `none` when the
fuel ran out with the loop still going. -/
def checkerLoop (flag : ℕ → Bool) (us : List (Option Sensor)) : ℕ → ℕ → Option (List CheckEvent)
  | _, 0 => none
  | k, fuel + 1 =>
    if flag k then
      match runPassAux flag us (k + 1) with
      | (none, evs, _) => some evs
      | (some count, evs, k') =>
        if count = 0 then some evs
        else
          match checkerLoop flag us k' fuel with
          | none => none
          | some evs' => some (evs ++ evs')
    else
      some []

/-- `Ultrasonic.ultrasonicChecker`, run against the flag oracle from index
`0` with `fuel` passes of budget. -/
def ultrasonicChecker (flag : ℕ → Bool) (us : List (Option Sensor)) (fuel : ℕ) :
    Option (List CheckEvent) :=
  checkerLoop flag us 0 fuel

/-! ### Helper lemmas -/

/-- A weak-set entry whose counter has been cleared. -/
def counterCleared : Option Sensor → Bool
  | none => true
  | some x => x.counter.get == 0

/-- All live entries of the weak set have cleared counters. -/
def countersCleared (us : List (Option Sensor)) : Bool := us.all counterCleared

/-- A weak-set entry whose range reads as invalid. -/
def sensorInvalid : Option Sensor → Bool
  | none => true
  | some x => !isRangeValid x

/-- All live entries of the weak set read as range-invalid. -/
def allRangesInvalid (us : List (Option Sensor)) : Bool := us.all sensorInvalid

lemma counterCleared_resetOpt (u : Option Sensor) : counterCleared (resetOpt u) = true := by
  cases u <;> rfl

lemma sensorInvalid_resetOpt (u : Option Sensor) : sensorInvalid (resetOpt u) = true := by
  cases u <;> rfl

lemma countersCleared_map_resetOpt (us : List (Option Sensor)) :
    countersCleared (us.map resetOpt) = true := by
  induction us with
  | nil => rfl
  | cons u rest ih =>
    simp only [countersCleared, List.map_cons, List.all_cons, counterCleared_resetOpt,
      Bool.true_and]
    simpa [countersCleared] using ih

lemma allRangesInvalid_map_resetOpt (us : List (Option Sensor)) :
    allRangesInvalid (us.map resetOpt) = true := by
  induction us with
  | nil => rfl
  | cons u rest ih =>
    simp only [allRangesInvalid, List.map_cons, List.all_cons, sensorInvalid_resetOpt,
      Bool.true_and]
    simpa [allRangesInvalid] using ih

lemma setAutomaticMode_false_eq (s : UltraState) :
    setAutomaticMode false s =
      .ok { automaticEnabled := false,
            thread := if threadIsAlive s.thread then .done else s.thread,
            sensors := s.sensors.map resetOpt } := by
  simp [setAutomaticMode, isAutomaticMode]

/-! ### Claim theorems -/

/-- The class-level state after constructing exactly one sensor (with the
inches unit): the thread object is fresh and the sensor is registered. -/
def oneSensorState : UltraState := addSensor 0 ultraStart

/-- C1: after `setAutomaticMode(True); setAutomaticMode(False)` the flag is
off and the (single) execution context has terminated, but the subsequent
`setAutomaticMode(True)` re-enables on the same `Thread` object and
`Thread.start` raises `RuntimeError: threads can only be started once`
instead of producing one active execution context. -/
theorem ultrasonic_C1_reenable_raises :
    applyToggles [true, false] oneSensorState =
      .ok { automaticEnabled := false, thread := .done,
            sensors := [some (mkSensor 0)] } ∧
    applyToggles [true, false, true] oneSensorState =
      .error "threads can only be started once" :=
  ⟨rfl, rfl⟩

/-- C2: every `setAutomaticMode(False)` call clears the flag, returns with
the execution context no longer alive, leaves every live sensor's counter
cleared (so every range reads invalid), and the stop-poll interval exceeds
one settle interval. -/
theorem ultrasonic_C2_disable_spec (s : UltraState) :
    setAutomaticMode false s =
      .ok { automaticEnabled := false,
            thread := if threadIsAlive s.thread then .done else s.thread,
            sensors := s.sensors.map resetOpt } ∧
    threadIsAlive (if threadIsAlive s.thread then ThreadState.done else s.thread) = false ∧
    countersCleared (s.sensors.map resetOpt) = true ∧
    allRangesInvalid (s.sensors.map resetOpt) = true ∧
    kStopPollTime > kSettleTime := by
  refine ⟨setAutomaticMode_false_eq s, ?_, countersCleared_map_resetOpt _,
    allRangesInvalid_map_resetOpt _, by norm_num [kStopPollTime, kSettleTime]⟩
  cases s.thread <;> simp [threadIsAlive]

/-- C3: `isRangeValid` is true exactly when the counter has recorded at
least 2 edges, and is false immediately after any counter reset. -/
theorem ultrasonic_C3_isRangeValid_spec (u : Sensor) :
    isRangeValid u = decide (2 ≤ u.counter.get) ∧
    isRangeValid { u with counter := u.counter.reset } = false := by
  constructor
  · simp only [isRangeValid, decide_eq_decide]
    omega
  · rfl

/-- C4: `getRangeInches` is exactly `0` when the range is invalid and
`period * (1130*12) / 2` when valid, and `getRangeMM` is always
`getRangeInches * 25.4`. -/
theorem ultrasonic_C4_range_formulas (u : Sensor) :
    (isRangeValid u = false → getRangeInches u = 0) ∧
    (isRangeValid u = true → getRangeInches u = u.counter.getPeriod * (1130 * 12) / 2) ∧
    getRangeMM u = getRangeInches u * (254 / 10) := by
  refine ⟨fun h => ?_, fun h => ?_, rfl⟩
  · simp [getRangeInches, h]
  · simp [getRangeInches, h, kSpeedOfSoundInchesPerSec]

/-- A sensor with a completed measurement (2 edges, period 3 s). -/
def validSensor : Sensor :=
  { counter := { count := 2, period := 3 }, units := 0, enabled := true }

/-- A sensor with an incomplete measurement (1 edge). -/
def invalidSensor : Sensor :=
  { counter := { count := 1, period := 3 }, units := 0, enabled := true }

/-- Witness for C4 at the two concrete sensors. -/
theorem ultrasonic_C4_witness :
    getRangeInches validSensor = validSensor.counter.getPeriod * (1130 * 12) / 2 ∧
    getRangeInches invalidSensor = 0 :=
  ⟨(ultrasonic_C4_range_formulas validSensor).2.1 (by decide),
   (ultrasonic_C4_range_formulas invalidSensor).1 (by decide)⟩

/-- C5: `ping` always succeeds, performing in order the blocking disable
(after which the automatic flag is false and the execution context is not
alive), the reset of this sensor's own counter, and a single pulse of
duration `kPingTime`. -/
theorem ultrasonic_C5_ping_spec (i : ℕ) (s : UltraState) :
    ping i s =
      .ok ({ automaticEnabled := false,
             thread := if threadIsAlive s.thread then .done else s.thread,
             sensors := resetCounterAt i (s.sensors.map resetOpt) },
           [PingAction.setAutomatic false, PingAction.counterReset i,
            PingAction.pulse i kPingTime]) := by
  simp [ping, setAutomaticMode_false_eq]

/-- C6: with zero registered sensors the checker terminates within a
single pass, whatever the interleaved flag reads are. -/
theorem ultrasonic_C6_checker_empty_terminates (flag : ℕ → Bool) (fuel : ℕ) :
    ultrasonicChecker flag [] (fuel + 1) = some [] := by
  cases h : flag 0 <;> simp [ultrasonicChecker, checkerLoop, runPassAux, h]

/-- Every pulse event in a trace is immediately followed by a settle-time
delay, so no two pulses fall within one settle window. -/
def pulseSeparated (tr : List CheckEvent) : Prop :=
  ∀ i u t, tr.get? i = some (CheckEvent.pulse u t) →
    tr.get? (i + 1) = some (CheckEvent.delay kSettleTime)

lemma pulseSeparated_cons_delay (tl : List CheckEvent) (h : pulseSeparated tl) :
    pulseSeparated (CheckEvent.delay kSettleTime :: tl) := by
  intro i u t hi
  match i with
  | 0 => simp at hi
  | j + 1 =>
    simp only [List.get?_cons_succ] at hi ⊢
    exact h j u t hi

lemma pulseSeparated_cons_pulse (v : Sensor) (t0 : ℚ) (tl : List CheckEvent)
    (h : pulseSeparated tl) :
    pulseSeparated (CheckEvent.pulse v t0 :: CheckEvent.delay kSettleTime :: tl) := by
  intro i u t hi
  match i with
  | 0 => rfl
  | 1 => simp at hi
  | j + 2 =>
    simp only [List.get?_cons_succ] at hi ⊢
    exact h j u t hi

lemma pulseSeparated_runPassAux (flag : ℕ → Bool) (us : List (Option Sensor)) (k : ℕ) :
    pulseSeparated (runPassAux flag us k).2.1 := by
  induction us generalizing k with
  | nil =>
    intro i u t hi
    simp [runPassAux] at hi
  | cons u rest ih =>
    by_cases hf : flag k
    · cases u with
      | none => simpa [runPassAux, hf] using ih (k + 1)
      | some sensor =>
        cases he : isEnabled sensor
        · simpa [runPassAux, hf, he] using pulseSeparated_cons_delay _ (ih (k + 1))
        · simpa [runPassAux, hf, he] using
            pulseSeparated_cons_pulse sensor kPingTime _ (ih (k + 1))
    · intro i u t hi
      simp [runPassAux, hf] at hi

/-- C7: a pass visiting a live sensor first re-reads the automatic flag and
returns immediately (no events) when it is off; otherwise the live count is
incremented whether or not the sensor is enabled, a pulse is emitted only
when it is enabled, a settle delay follows the visit, and every pulse in a
pass trace is immediately followed by a settle delay. -/
theorem ultrasonic_C7_pass_step (flag : ℕ → Bool) (u : Sensor)
    (rest : List (Option Sensor)) (k : ℕ) :
    runPassAux flag (some u :: rest) k =
      (if flag k then
        ((runPassAux flag rest (k + 1)).1.map (· + 1),
         (if isEnabled u then [CheckEvent.pulse u kPingTime] else []) ++
           CheckEvent.delay kSettleTime :: (runPassAux flag rest (k + 1)).2.1,
         (runPassAux flag rest (k + 1)).2.2)
      else (none, [], k + 1)) ∧
    pulseSeparated (runPassAux flag (some u :: rest) k).2.1 :=
  ⟨by cases hf : flag k <;> simp [runPassAux, hf],
   pulseSeparated_runPassAux flag (some u :: rest) k⟩

/-- A sample enabled sensor for the C7 witness. -/
def sampleSensor : Sensor := mkSensor 0

/-- Witness for C7: in the concrete one-sensor pass trace, the pulse at
index 0 is immediately followed by the settle delay. -/
theorem ultrasonic_C7_witness :
    (runPassAux (fun _ => true) [some sampleSensor] 0).2.1.get? 1 =
      some (CheckEvent.delay kSettleTime) :=
  (ultrasonic_C7_pass_step (fun _ => true) sampleSensor [] 0).2 0 sampleSensor kPingTime rfl

/-- C8: `setDistanceUnits` raises `ValueError` for every unit outside the
two recognized ones, leaving the sensor unchanged (the exception is raised
before the assignment), and stores a recognized unit. -/
theorem ultrasonic_C8_setUnits_spec (n : ℤ) (u : Sensor) :
    (¬(n = kInches ∨ n = kMillimeters) →
      setDistanceUnits n u = .error ("Invalid units argument " ++ toString n)) ∧
    ((n = kInches ∨ n = kMillimeters) →
      setDistanceUnits n u = .ok { u with units := n }) := by
  constructor
  · intro h
    unfold setDistanceUnits
    rw [if_pos h]
  · intro h
    unfold setDistanceUnits
    rw [if_neg (not_not_intro h)]

/-- Witness for C8: unit 3 is rejected, unit 1 is stored. -/
theorem ultrasonic_C8_witness :
    setDistanceUnits 3 (mkSensor 0) = .error "Invalid units argument 3" ∧
    setDistanceUnits 1 (mkSensor 0) = .ok { mkSensor 0 with units := 1 } :=
  ⟨(ultrasonic_C8_setUnits_spec 3 (mkSensor 0)).1 (by decide),
   (ultrasonic_C8_setUnits_spec 1 (mkSensor 0)).2 (by decide)⟩

/-- C9: enabling automatic mode while it is already enabled returns the
state unchanged: no counter is reset and no execution context is
started. -/
theorem ultrasonic_C9_enable_noop (s : UltraState) (h : isAutomaticMode s = true) :
    setAutomaticMode true s = .ok s := by
  simp [setAutomaticMode, h]

/-- Witness for C9 at a concrete already-automatic state. -/
theorem ultrasonic_C9_witness :
    setAutomaticMode true
        { automaticEnabled := true, thread := .running, sensors := [some (mkSensor 0)] } =
      .ok { automaticEnabled := true, thread := .running, sensors := [some (mkSensor 0)] } :=
  ultrasonic_C9_enable_noop _ rfl

/-- C10: the constructor stores any units value without validation, and
`pidGet` returns `0` for every sensor whose stored unit is neither
recognized unit. -/
theorem ultrasonic_C10_units_unvalidated (n : ℤ) (u : Sensor) :
    (mkSensor n).units = n ∧
    (u.units ≠ kInches → u.units ≠ kMillimeters → pidGet u = 0) := by
  refine ⟨rfl, fun h1 h2 => ?_⟩
  simp [pidGet, h1, h2]

/-- Witness for C10: a sensor constructed with unit 7 keeps it and its
`pidGet` reads `0`. -/
theorem ultrasonic_C10_witness :
    (mkSensor 7).units = 7 ∧ pidGet (mkSensor 7) = 0 :=
  ⟨(ultrasonic_C10_units_unvalidated 7 (mkSensor 7)).1,
   (ultrasonic_C10_units_unvalidated 7 (mkSensor 7)).2 (by decide) (by decide)⟩
